import Mathlib

/-!
Shallow embedding of the AutoTrac backend (src/backend/app): the data model
of models.py, the request schemas of schemas.py and the HTTP handlers of
main.py. Timestamps are modelled as rational numbers of seconds and monetary
amounts as rationals; the relational store is a triple of lists, one per
table, and each handler is a function on the store.
-/

namespace AutoTrac

/-- Timestamps (Python datetime), as rational seconds. -/
abbrev Time := ℚ

/-- models.Project: integer id, unique name, optional description text and a
creation timestamp. -/
structure Project where
  id : Nat
  name : String
  description : Option String
  created_at : Time
deriving Repr, DecidableEq

/-- models.TimeEntry: integer id, required project_id foreign key, required
start_time, optional end_time (None while the entry runs) and optional note. -/
structure TimeEntry where
  id : Nat
  project_id : Nat
  start_time : Time
  end_time : Option Time
  note : Option String
deriving Repr, DecidableEq

/-- models.IncomeRecord: integer id, required project_id foreign key, required
date, required amount, optional currency, source and note. -/
structure IncomeRecord where
  id : Nat
  project_id : Nat
  date : Time
  amount : ℚ
  currency : Option String
  source : Option String
  note : Option String
deriving Repr, DecidableEq

/-- The relational store: one table per mapped class. -/
structure Store where
  projects : List Project
  time_entries : List TimeEntry
  incomes : List IncomeRecord
deriving Repr, DecidableEq

/-- A fastapi HTTPException: status code and detail message. -/
structure ApiError where
  status : Nat
  detail : String
deriving Repr, DecidableEq

/-- schemas.ProjectCreate: name is required; client, hourly_rate and notes
default to None. -/
structure ProjectCreate where
  name : String
  client : Option String
  hourly_rate : Option ℚ
  notes : Option String
deriving Repr, DecidableEq

/-- schemas.TimeEntryCreate: project_id and start_time required; end_time and
note default to None. -/
structure TimeEntryCreate where
  project_id : Nat
  start_time : Time
  end_time : Option Time
  note : Option String
deriving Repr, DecidableEq

/-- schemas.IncomeCreate: project_id, date and amount required; source and
note default to None. The schema has no currency field. -/
structure IncomeCreate where
  project_id : Nat
  date : Time
  amount : ℚ
  source : Option String
  note : Option String
deriving Repr, DecidableEq

/-- db.query(models.Project).filter_by(id=pid).first() -/
def findProject (db : Store) (pid : Nat) : Option Project :=
  db.projects.find? (fun p => p.id == pid)

/-- db.query(models.TimeEntry).filter_by(id=eid).first() -/
def findTimeEntry (db : Store) (eid : Nat) : Option TimeEntry :=
  db.time_entries.find? (fun e => e.id == eid)

/-- The keyword names accepted by the models.Project declarative constructor:
its mapped columns and relationship attributes. Any other keyword raises
TypeError. -/
def projectModelAttrs : List String :=
  ["id", "name", "description", "created_at", "time_entries", "incomes"]

/-- The keys of project.dict() for a schemas.ProjectCreate body, in field
order; pydantic dict() includes fields whose value is None. -/
def projectCreateKeys : List String := ["name", "client", "hourly_rate", "notes"]

/-- POST /projects/ (main.py create_project): models.Project(**project.dict())
followed by add and commit. The declarative constructor checks each keyword
against the mapped attributes and raises TypeError on the first unknown one;
only if every keyword is mapped would the project be added. With the keys of
schemas.ProjectCreate the constructor always raises on the client keyword, so
the success branch is unreachable (and models.Project has no column that could
carry client, hourly_rate or notes). -/
def create_project (db : Store) (p : ProjectCreate) (newId : Nat) (now : Time) :
    Store × Except String Project :=
  match projectCreateKeys.find? (fun k => !(projectModelAttrs.contains k)) with
  | some k =>
      (db, .error ("TypeError: " ++ k ++ " is an invalid keyword argument for Project"))
  | none =>
      let proj : Project := { id := newId, name := p.name, description := none, created_at := now }
      ({ db with projects := db.projects ++ [proj] }, .ok proj)

/-- POST /time-entries/ (main.py create_time_entry): 404 before any write when
the project id is unknown; otherwise persist a new TimeEntry built from the
request fields. -/
def create_time_entry (db : Store) (e : TimeEntryCreate) (newId : Nat) :
    Store × Except ApiError TimeEntry :=
  match findProject db e.project_id with
  | none => (db, .error ⟨404, "Project not found"⟩)
  | some _ =>
      let en : TimeEntry :=
        { id := newId, project_id := e.project_id, start_time := e.start_time,
          end_time := e.end_time, note := e.note }
      ({ db with time_entries := db.time_entries ++ [en] }, .ok en)

/-- POST /incomes/ (main.py create_income): 404 before any write when the
project id is unknown; otherwise persist models.IncomeRecord(**income.dict());
currency is absent from the schema so the column keeps its None default. -/
def create_income (db : Store) (inc : IncomeCreate) (newId : Nat) :
    Store × Except ApiError IncomeRecord :=
  match findProject db inc.project_id with
  | none => (db, .error ⟨404, "Project not found"⟩)
  | some _ =>
      let rec0 : IncomeRecord :=
        { id := newId, project_id := inc.project_id, date := inc.date,
          amount := inc.amount, currency := none, source := inc.source, note := inc.note }
      ({ db with incomes := db.incomes ++ [rec0] }, .ok rec0)

/-- POST /time-entries/{entry_id}/stop (main.py stop_time_entry): 404 when the
id is unknown; if end_time is already set, return the entry with no write;
otherwise set end_time to the current instant and commit. -/
def stop_time_entry (db : Store) (entry_id : Nat) (now : Time) :
    Store × Except ApiError TimeEntry :=
  match findTimeEntry db entry_id with
  | none => (db, .error ⟨404, "Time entry not found"⟩)
  | some entry =>
      match entry.end_time with
      | some _ => (db, .ok entry)
      | none =>
          let entry' : TimeEntry := { entry with end_time := some now }
          ({ db with time_entries :=
              db.time_entries.map (fun e => if e.id == entry_id then entry' else e) },
            .ok entry')

/-- Optional project_id filter of the time-entry queries. -/
def filterProjTime (pid? : Option Nat) (l : List TimeEntry) : List TimeEntry :=
  match pid? with
  | none => l
  | some pid => l.filter (fun e => e.project_id == pid)

/-- Optional date_from filter: start_time >= date_from. -/
def filterFromTime (d? : Option Time) (l : List TimeEntry) : List TimeEntry :=
  match d? with
  | none => l
  | some d => l.filter (fun e => decide (d ≤ e.start_time))

/-- Optional date_to filter: start_time <= date_to. -/
def filterToTime (d? : Option Time) (l : List TimeEntry) : List TimeEntry :=
  match d? with
  | none => l
  | some d => l.filter (fun e => decide (e.start_time ≤ d))

/-- Optional date_from filter on income records: date >= date_from. -/
def filterFromIncome (d? : Option Time) (l : List IncomeRecord) : List IncomeRecord :=
  match d? with
  | none => l
  | some d => l.filter (fun i => decide (d ≤ i.date))

/-- Optional date_to filter on income records: date <= date_to. -/
def filterToIncome (d? : Option Time) (l : List IncomeRecord) : List IncomeRecord :=
  match d? with
  | none => l
  | some d => l.filter (fun i => decide (i.date ≤ d))

/-- Insertion into a list sorted by the boolean relation le. -/
def insertBy (le : α → α → Bool) (x : α) : List α → List α
  | [] => [x]
  | y :: ys => if le x y then x :: y :: ys else y :: insertBy le x ys

/-- Insertion sort by the boolean relation le. -/
def sortBy (le : α → α → Bool) : List α → List α
  | [] => []
  | x :: xs => insertBy le x (sortBy le xs)

/-- order_by(key.desc()). -/
def sortDescBy (k : α → ℚ) (l : List α) : List α :=
  sortBy (fun a b => decide (k b ≤ k a)) l

/-- order_by(key.asc()). -/
def sortAscBy (k : α → ℚ) (l : List α) : List α :=
  sortBy (fun a b => decide (k a ≤ k b)) l

/-- GET /time-entries/ (main.py list_time_entries): optional project and
inclusive date-window filters on start_time, ordered by start_time
descending. -/
def list_time_entries (db : Store) (project_id : Option Nat)
    (date_from date_to : Option Time) : List TimeEntry :=
  sortDescBy (fun e => e.start_time)
    (filterToTime date_to (filterFromTime date_from
      (filterProjTime project_id db.time_entries)))

/-- schemas.ProjectSummary. -/
structure ProjectSummary where
  project : Project
  total_minutes : ℚ
  total_income : ℚ
  effective_hourly_rate : Option ℚ
deriving Repr, DecidableEq

/-- Minutes contributed by one time entry: end_time, or the current instant
when the entry is still running, minus start_time, divided by 60 (timestamps
are in seconds). -/
def durationMinutes (now : Time) (e : TimeEntry) : ℚ :=
  match e.end_time with
  | some t => (t - e.start_time) / 60
  | none => (now - e.start_time) / 60

/-- GET /projects/{project_id}/summary (main.py project_summary): 404 when the
project id is unknown; otherwise sum the elapsed minutes of the matching time
entries and the amounts of the matching income records, and derive the
effective hourly rate only when total_minutes is positive. -/
def project_summary (db : Store) (project_id : Nat)
    (date_from date_to : Option Time) (now : Time) :
    Except ApiError ProjectSummary :=
  match findProject db project_id with
  | none => .error ⟨404, "Project not found"⟩
  | some project =>
      let time_q := filterToTime date_to (filterFromTime date_from
        (db.time_entries.filter (fun e => e.project_id == project_id)))
      let income_q := filterToIncome date_to (filterFromIncome date_from
        (db.incomes.filter (fun i => i.project_id == project_id)))
      let total_minutes := (time_q.map (durationMinutes now)).sum
      let total_income := (income_q.map IncomeRecord.amount).sum
      let eff_rate : Option ℚ :=
        if 0 < total_minutes then some (total_income / (total_minutes / 60)) else none
      .ok { project := project, total_minutes := total_minutes,
            total_income := total_income, effective_hourly_rate := eff_rate }

/-- A decimal digit character. -/
def digitChar (d : Nat) : Char :=
  match d % 10 with
  | 0 => '0' | 1 => '1' | 2 => '2' | 3 => '3' | 4 => '4'
  | 5 => '5' | 6 => '6' | 7 => '7' | 8 => '8' | _ => '9'

/-- Fuel-driven decimal digit list of a natural number, most significant
digit first. -/
def natReprAux : Nat → Nat → List Char
  | 0, _ => []
  | fuel + 1, n => if n = 0 then [] else natReprAux fuel (n / 10) ++ [digitChar n]

/-- str(n) for a natural number: its decimal rendering. -/
def natRepr (n : Nat) : String :=
  if n = 0 then "0" else ⟨natReprAux (n + 1) n⟩

/-- datetime.isoformat. Timestamps are abstract rational seconds, rendered as
sign, numerator and denominator in decimal; like real ISO-8601 output the
result consists of digits and separator characters only, never a comma, a
quote or a line break. -/
def isoformat (t : Time) : String :=
  (if t < 0 then "-" else "") ++ natRepr t.num.natAbs ++ "." ++ natRepr t.den

/-- Nearest integer to x, half rounding up: the floor of x + 1/2, computed on
the numerator and denominator. -/
def roundRat (x : ℚ) : Int :=
  Int.fdiv (2 * x.num + x.den) (2 * x.den)

/-- The Python format spec .2f: fixed-point rendering with exactly two digits
after the decimal point (rounding to the nearest hundredth). -/
def formatTwoDecimals (x : ℚ) : String :=
  let c : Int := roundRat (x * 100)
  (if c < 0 then "-" else "") ++ natRepr (c.natAbs / 100) ++ "." ++
    ⟨[digitChar (c.natAbs / 10), digitChar c.natAbs]⟩

/-- csv QUOTE_MINIMAL (excel dialect): a field is quoted when it contains the
delimiter, the quote character or a line-break character. -/
def csvNeedsQuote (s : String) : Bool :=
  s.data.any (fun c => c == ',' || c == '"' || c == '\r' || c == '\n')

/-- Double every embedded quote character. -/
def csvEscapeChars : List Char → List Char
  | [] => []
  | c :: cs => if c == '"' then '"' :: '"' :: csvEscapeChars cs else c :: csvEscapeChars cs

/-- Render one field: quote and escape it when needed, else emit it as is. -/
def csvField (s : String) : String :=
  if csvNeedsQuote s then "\"" ++ String.mk (csvEscapeChars s.data) ++ "\"" else s

/-- Comma-join a list of rendered fields. -/
def joinComma : List String → String
  | [] => ""
  | [f] => f
  | f :: fs => f ++ "," ++ joinComma fs

/-- csv.writer.writerow: render the fields, comma-join them and terminate the
row with CRLF. -/
def csvRow (fields : List String) : String :=
  joinComma (fields.map csvField) ++ "\r\n"

/-- Concatenation of rendered rows. -/
def concatRows : List String → String
  | [] => ""
  | r :: rs => r ++ concatRows rs

/-- A fastapi Response carrying CSV: its body and attachment filename (the
media type is the constant text/csv). -/
structure CsvResponse where
  content : String
  filename : String
deriving Repr, DecidableEq

/-- Header row of the time-entry export. -/
def timeHeader : List String :=
  ["id", "project_id", "start_time", "end_time", "note", "duration_minutes"]

/-- Header row of the income export. -/
def incomesHeader : List String := ["id", "project_id", "date", "amount", "source", "note"]

/-- The cells written for one exported time entry: ids in decimal, times in
ISO format with the empty string for a null end_time, the note with the empty
string for None, and the duration in minutes with two decimal places. -/
def timeCsvFields (now : Time) (e : TimeEntry) : List String :=
  [natRepr e.id, natRepr e.project_id, isoformat e.start_time,
   (match e.end_time with | some t => isoformat t | none => ""),
   e.note.getD "",
   formatTwoDecimals (durationMinutes now e)]

/-- The cells written for one exported income record: ids in decimal, the date
in ISO format, the amount with two decimal places, and source and note with
the empty string for None. -/
def incomeCsvFields (inc : IncomeRecord) : List String :=
  [natRepr inc.id, natRepr inc.project_id, isoformat inc.date,
   formatTwoDecimals inc.amount, inc.source.getD "", inc.note.getD ""]

/-- The time entries selected by the time export: filtered by project and the
optional window, ordered by start_time ascending. No project-existence check
is performed. -/
def matchingEntriesAsc (db : Store) (pid : Nat) (date_from date_to : Option Time) :
    List TimeEntry :=
  sortAscBy (fun e => e.start_time)
    (filterToTime date_to (filterFromTime date_from
      (db.time_entries.filter (fun e => e.project_id == pid))))

/-- The income records selected by the income export: filtered by project and
the optional window, ordered by date ascending. No project-existence check is
performed. -/
def matchingIncomesAsc (db : Store) (pid : Nat) (date_from date_to : Option Time) :
    List IncomeRecord :=
  sortAscBy (fun i => i.date)
    (filterToIncome date_to (filterFromIncome date_from
      (db.incomes.filter (fun i => i.project_id == pid))))

/-- GET /projects/{project_id}/export/time.csv (main.py export_time_csv):
header row plus one row per selected entry; the handler has no failure
path. -/
def export_time_csv (db : Store) (pid : Nat) (date_from date_to : Option Time)
    (now : Time) : CsvResponse :=
  { content := csvRow timeHeader ++
      concatRows ((matchingEntriesAsc db pid date_from date_to).map
        (fun e => csvRow (timeCsvFields now e))),
    filename := "project_" ++ natRepr pid ++ "_time_entries.csv" }

/-- GET /projects/{project_id}/export/incomes.csv (main.py export_incomes_csv):
header row plus one row per selected record; the handler has no failure
path. -/
def export_incomes_csv (db : Store) (pid : Nat) (date_from date_to : Option Time) :
    CsvResponse :=
  { content := csvRow incomesHeader ++
      concatRows ((matchingIncomesAsc db pid date_from date_to).map
        (fun i => csvRow (incomeCsvFields i))),
    filename := "project_" ++ natRepr pid ++ "_incomes.csv" }

/-- The HTTP routes registered on the fastapi app in main.py, as
(method, path) pairs in declaration order. -/
def routes : List (String × String) :=
  [("POST", "/projects/"), ("GET", "/projects/"),
   ("POST", "/time-entries/"), ("POST", "/time-entries/{entry_id}/stop"),
   ("GET", "/time-entries/"),
   ("POST", "/incomes/"), ("GET", "/incomes/"),
   ("GET", "/projects/{project_id}/summary"),
   ("GET", "/projects/{project_id}/export/time.csv"),
   ("GET", "/projects/{project_id}/export/incomes.csv")]

/-- Modelled from the cascade declarations on models.Project (relationship
cascade all, delete-orphan on time_entries and incomes): deleting a project
through the session deletes its dependent time entries and income records
with it. main.py registers no route that invokes this. -/
def delete_project_cascade (db : Store) (pid : Nat) : Store :=
  { projects := db.projects.filter (fun p => !(p.id == pid)),
    time_entries := db.time_entries.filter (fun e => !(e.project_id == pid)),
    incomes := db.incomes.filter (fun i => !(i.project_id == pid)) }

/-- A POST /incomes/ request body; None marks a field absent from the JSON
object. -/
structure IncomeRequest where
  project_id : Option Nat
  date : Option Time
  amount : Option ℚ
  source : Option String
  note : Option String
deriving Repr, DecidableEq

/-- Request validation against schemas.IncomeCreate: project_id, date and
amount are declared without defaults and are therefore required, while source
and note default to None; a missing required field is rejected with a 422
validation error before the handler runs. -/
def parseIncomeCreate (r : IncomeRequest) : Except ApiError IncomeCreate :=
  match r.project_id, r.date, r.amount with
  | some pid, some d, some a => .ok ⟨pid, d, a, r.source, r.note⟩
  | _, _, _ => .error ⟨422, "field required"⟩

/-- The full POST /incomes/ pipeline: validate the body, then run the
create_income handler. -/
def post_incomes (db : Store) (r : IncomeRequest) (newId : Nat) :
    Store × Except ApiError IncomeRecord :=
  match parseIncomeCreate r with
  | .error err => (db, .error err)
  | .ok inc => create_income db inc newId

/-- The window predicate of the summary and list queries on a time entry:
same project, start_time within the inclusive optional bounds. -/
def entryMatches (pid : Nat) (date_from date_to : Option Time) (e : TimeEntry) : Bool :=
  (e.project_id == pid
    && (match date_from with | none => true | some d => decide (d ≤ e.start_time)))
    && (match date_to with | none => true | some d => decide (e.start_time ≤ d))

/-- The window predicate of the summary and list queries on an income record:
same project, date within the inclusive optional bounds. -/
def incomeMatches (pid : Nat) (date_from date_to : Option Time) (i : IncomeRecord) : Bool :=
  (i.project_id == pid
    && (match date_from with | none => true | some d => decide (d ≤ i.date)))
    && (match date_to with | none => true | some d => decide (i.date ≤ d))

/-- True of a character that is neither a carriage return nor a line feed. -/
def notBreak (c : Char) : Bool := !(c == '\r' || c == '\n')

/-- True of a string with no line-break character. -/
def noLineBreak (s : String) : Bool := s.data.all notBreak

/-- Number of text lines of a CSV payload: its line-feed count (every row the
writer emits ends in CRLF). -/
def lineCount (s : String) : Nat := s.data.count '\n'

/-- The ten decimal digit characters. -/
def digitList : List Char := ['0', '1', '2', '3', '4', '5', '6', '7', '8', '9']

/-- A string that ends in a decimal point followed by exactly two digits,
with no other decimal point. -/
def twoDecimalPlaces (s : String) : Prop :=
  ∃ intChars d1 d2, s.data = intChars ++ ['.', d1, d2] ∧
    '.' ∉ intChars ∧ d1 ∈ digitList ∧ d2 ∈ digitList

/-- The empty store. -/
def emptyStore : Store := ⟨[], [], []⟩

/-- A store holding one project and nothing else. -/
def storeAcme : Store :=
  ⟨[{ id := 1, name := "Acme", description := none, created_at := 0 }], [], []⟩

/-- A store holding one running time entry. -/
def storeRun : Store := ⟨[], [⟨1, 1, 0, none, none⟩], []⟩

/-- A store holding one already-stopped time entry. -/
def storeStopped : Store := ⟨[], [⟨1, 1, 0, some 30, none⟩], []⟩

/-- Two projects, each with one time entry and one income record. -/
def storeTwo : Store :=
  ⟨[⟨1, "Acme", none, 0⟩, ⟨2, "Beta", none, 0⟩],
   [⟨1, 1, 0, none, none⟩, ⟨2, 2, 5, none, none⟩],
   [⟨1, 1, 0, 100, none, none, none⟩, ⟨2, 2, 5, 50, none, none, none⟩]⟩

/-- One project with one income record whose note embeds a line break. -/
def storeBreak : Store :=
  { projects := [{ id := 1, name := "Acme", description := none, created_at := 0 }],
    time_entries := [],
    incomes := [{ id := 1, project_id := 1, date := 0, amount := 1500,
                  currency := none, source := none, note := some "line one\nline two" }] }

/-- One project with two incomes free of line breaks. -/
def storePlain : Store :=
  { projects := [{ id := 1, name := "Acme", description := none, created_at := 0 }],
    time_entries := [],
    incomes := [⟨1, 1, 0, 1500, none, none, none⟩,
                ⟨2, 1, 10, 25, none, some "consulting", some "ok"⟩] }

/-- A store with one entry whose start_time sits on both window bounds. -/
def storeBound : Store := ⟨[⟨1, "Acme", none, 0⟩], [⟨1, 1, 5, none, none⟩], []⟩

/-- An income request that omits the date field. -/
def reqNoDate : IncomeRequest := ⟨some 1, none, some 1500, none, none⟩

/-- An income request with every required field present. -/
def reqFull : IncomeRequest := ⟨some 1, some 42, some 1500, none, some "invoice"⟩

theorem insertBy_perm (le : α → α → Bool) (x : α) (l : List α) :
    List.Perm (insertBy le x l) (x :: l) := by
  induction l with
  | nil => exact List.Perm.refl _
  | cons y ys ih =>
      unfold insertBy
      by_cases h : le x y
      · simp [h]
      · have h' : le x y = false := by simpa using h
        rw [h']
        simp only [Bool.false_eq_true, not_false_eq_true, if_neg]
        exact ((ih.cons y).trans (List.Perm.swap x y ys))

theorem sortBy_perm (le : α → α → Bool) (l : List α) : List.Perm (sortBy le l) l := by
  induction l with
  | nil => exact List.Perm.refl _
  | cons x xs ih => exact (insertBy_perm le x (sortBy le xs)).trans (ih.cons x)

theorem mem_sortDescBy (k : α → ℚ) (l : List α) (a : α) :
    a ∈ sortDescBy k l ↔ a ∈ l :=
  (sortBy_perm _ l).mem_iff

theorem mem_sortAscBy (k : α → ℚ) (l : List α) (a : α) :
    a ∈ sortAscBy k l ↔ a ∈ l :=
  (sortBy_perm _ l).mem_iff

theorem length_sortAscBy (k : α → ℚ) (l : List α) :
    (sortAscBy k l).length = l.length :=
  (sortBy_perm _ l).length_eq

theorem time_window_eq (pid : Nat) (df dt : Option Time) (l : List TimeEntry) :
    filterToTime dt (filterFromTime df (l.filter (fun e => e.project_id == pid)))
      = l.filter (entryMatches pid df dt) := by
  cases df <;> cases dt <;>
    · simp only [filterFromTime, filterToTime, List.filter_filter]
      exact List.filter_congr (fun e _ => by
        simp [entryMatches, Bool.and_comm, Bool.and_left_comm, Bool.and_assoc])

theorem income_window_eq (pid : Nat) (df dt : Option Time) (l : List IncomeRecord) :
    filterToIncome dt (filterFromIncome df (l.filter (fun i => i.project_id == pid)))
      = l.filter (incomeMatches pid df dt) := by
  cases df <;> cases dt <;>
    · simp only [filterFromIncome, filterToIncome, List.filter_filter]
      exact List.filter_congr (fun i _ => by
        simp [incomeMatches, Bool.and_comm, Bool.and_left_comm, Bool.and_assoc])

theorem find?_update_of_found (eid : Nat) (x : TimeEntry) (hid : x.id = eid) :
    ∀ (l : List TimeEntry), (l.find? (fun e => e.id == eid)).isSome = true →
      ((l.map (fun e => if e.id == eid then x else e)).find?
        (fun e => e.id == eid)) = some x := by
  intro l
  induction l with
  | nil => intro h; simp [List.find?] at h
  | cons y ys ih =>
      intro hsome
      by_cases hy : (y.id == eid) = true
      · have hx : (x.id == eid) = true := by simp [hid]
        rw [List.map_cons, if_pos hy]
        exact List.find?_cons_of_pos _ hx
      · have hy' : (y.id == eid) = false := by simpa using hy
        rw [List.map_cons, if_neg (by simp [hy']),
          List.find?_cons_of_neg _ (by simp [hy'])]
        apply ih
        rwa [List.find?_cons_of_neg _ (by simp [hy'])] at hsome

theorem lineCount_append (a b : String) :
    lineCount (a ++ b) = lineCount a + lineCount b := by
  simp [lineCount, String.data_append, List.count_append]

theorem noLineBreak_append (a b : String) :
    noLineBreak (a ++ b) = (noLineBreak a && noLineBreak b) := by
  simp [noLineBreak, String.data_append, List.all_append]

theorem lineCount_eq_zero (s : String) (h : noLineBreak s = true) :
    lineCount s = 0 := by
  simp only [noLineBreak, List.all_eq_true] at h
  simp only [lineCount]
  rw [List.count_eq_zero]
  intro hmem
  have := h _ hmem
  simp [notBreak] at this

theorem digitChar_mem (d : Nat) : digitChar d ∈ digitList := by
  unfold digitChar
  split <;> simp [digitList]

theorem digit_notBreak (c : Char) (h : c ∈ digitList) : notBreak c = true := by
  have hall : digitList.all notBreak = true := by decide
  exact List.all_eq_true.mp hall c h

theorem digit_ne_dot (c : Char) (h : c ∈ digitList) : c ≠ '.' := by
  have hall : digitList.all (fun c => !(c == '.')) = true := by decide
  have := List.all_eq_true.mp hall c h
  simpa using this

theorem natReprAux_digits (fuel n : Nat) :
    ∀ c ∈ natReprAux fuel n, c ∈ digitList := by
  induction fuel generalizing n with
  | zero => simp [natReprAux]
  | succ fuel ih =>
      intro c hc
      unfold natReprAux at hc
      by_cases hn : n = 0
      · simp [hn] at hc
      · simp only [hn, if_neg, not_false_eq_true, List.mem_append,
          List.mem_singleton] at hc
        rcases hc with hc | hc
        · exact ih _ c hc
        · subst hc; exact digitChar_mem n

theorem natRepr_digits (n : Nat) : ∀ c ∈ (natRepr n).data, c ∈ digitList := by
  unfold natRepr
  by_cases hn : n = 0
  · simp [hn, digitList]
  · simp only [hn, if_neg, not_false_eq_true]
    exact natReprAux_digits (n + 1) n

theorem noLineBreak_natRepr (n : Nat) : noLineBreak (natRepr n) = true := by
  simp only [noLineBreak, List.all_eq_true]
  exact fun c hc => digit_notBreak c (natRepr_digits n c hc)

theorem noLineBreak_sign (c : Prop) [Decidable c] :
    noLineBreak (if c then "-" else "") = true := by
  by_cases h : c <;> simp only [h, if_pos, if_neg, not_false_eq_true] <;> decide

theorem noLineBreak_isoformat (t : Time) : noLineBreak (isoformat t) = true := by
  unfold isoformat
  rw [noLineBreak_append, noLineBreak_append, noLineBreak_append]
  rw [noLineBreak_natRepr, noLineBreak_natRepr, noLineBreak_sign]
  decide

theorem noLineBreak_mk2 (d1 d2 : Char) (h1 : notBreak d1 = true)
    (h2 : notBreak d2 = true) : noLineBreak (String.mk [d1, d2]) = true := by
  simp [noLineBreak, List.all, h1, h2]

theorem noLineBreak_formatTwoDecimals (x : ℚ) :
    noLineBreak (formatTwoDecimals x) = true := by
  unfold formatTwoDecimals
  rw [noLineBreak_append, noLineBreak_append, noLineBreak_append]
  rw [noLineBreak_natRepr, noLineBreak_sign]
  rw [noLineBreak_mk2 _ _ (digit_notBreak _ (digitChar_mem _))
    (digit_notBreak _ (digitChar_mem _))]
  decide

theorem csvEscapeChars_all (l : List Char) (h : l.all notBreak = true) :
    (csvEscapeChars l).all notBreak = true := by
  induction l with
  | nil => simp [csvEscapeChars]
  | cons c cs ih =>
      simp only [List.all_cons, Bool.and_eq_true] at h
      unfold csvEscapeChars
      by_cases hc : c == '"'
      · simp only [hc, if_pos, List.all_cons, Bool.and_eq_true]
        exact ⟨by decide, by decide, ih h.2⟩
      · simp only [hc, Bool.false_eq_true, not_false_eq_true, if_neg,
          List.all_cons, Bool.and_eq_true]
        exact ⟨h.1, ih h.2⟩

theorem noLineBreak_csvField (s : String) (h : noLineBreak s = true) :
    noLineBreak (csvField s) = true := by
  unfold csvField
  by_cases hq : csvNeedsQuote s = true
  · rw [if_pos hq, noLineBreak_append, noLineBreak_append]
    have hesc : noLineBreak (String.mk (csvEscapeChars s.data)) = true :=
      csvEscapeChars_all s.data h
    rw [hesc]
    decide
  · rw [if_neg hq]
    exact h

theorem noLineBreak_joinComma (fs : List String)
    (h : ∀ f ∈ fs, noLineBreak f = true) : noLineBreak (joinComma fs) = true := by
  induction fs with
  | nil => decide
  | cons f fs ih =>
      match fs, ih with
      | [], _ => exact h f (by simp)
      | g :: gs, ih =>
          show noLineBreak (f ++ "," ++ joinComma (g :: gs)) = true
          rw [noLineBreak_append, noLineBreak_append]
          rw [h f (by simp), ih (fun x hx => h x (by simp [hx]))]
          decide

theorem lineCount_csvRow (fields : List String)
    (h : ∀ f ∈ fields, noLineBreak f = true) : lineCount (csvRow fields) = 1 := by
  unfold csvRow
  rw [lineCount_append]
  have hj : noLineBreak (joinComma (fields.map csvField)) = true := by
    apply noLineBreak_joinComma
    intro f hf
    rcases List.mem_map.mp hf with ⟨g, hg, rfl⟩
    exact noLineBreak_csvField g (h g hg)
  rw [lineCount_eq_zero _ hj]
  decide

theorem lineCount_concatRows (rs : List String) :
    lineCount (concatRows rs) = (rs.map lineCount).sum := by
  induction rs with
  | nil => decide
  | cons r rs ih => simp [concatRows, lineCount_append, ih]

theorem natRepr_no_dot (n : Nat) : '.' ∉ (natRepr n).data := by
  intro hmem
  exact digit_ne_dot '.' (natRepr_digits n '.' hmem) rfl

theorem formatTwoDecimals_shape (x : ℚ) :
    twoDecimalPlaces (formatTwoDecimals x) := by
  unfold formatTwoDecimals twoDecimalPlaces
  refine ⟨((if roundRat (x * 100) < 0 then "-" else "") ++
    natRepr ((roundRat (x * 100)).natAbs / 100)).data,
    digitChar ((roundRat (x * 100)).natAbs / 10),
    digitChar (roundRat (x * 100)).natAbs, ?_, ?_, digitChar_mem _, digitChar_mem _⟩
  · simp [String.data_append]
  · rw [String.data_append, List.mem_append]
    rintro (hdot | hdot)
    · by_cases h : roundRat (x * 100) < 0
      · rw [if_pos h] at hdot
        revert hdot; decide
      · rw [if_neg h] at hdot
        revert hdot; decide
    · exact natRepr_no_dot _ hdot

/-- C1: for every project and optional inclusive date window, the summary
returns total_minutes equal to the sum over matching time entries of
(end_time, or the current instant when end_time is null, minus start_time)
converted to minutes, total_income equal to the sum of amount over matching
income records, and effective_hourly_rate equal to
total_income / (total_minutes / 60) exactly when total_minutes > 0 and absent
otherwise (never dividing by zero); for a project with no matching entries and
no matching income it returns total_minutes=0, total_income=0 and an absent
effective_hourly_rate. -/
theorem project_summary_totals (db : Store) (pid : Nat)
    (date_from date_to : Option Time) (now : Time) (p : Project)
    (hp : findProject db pid = some p) :
    (project_summary db pid date_from date_to now = Except.ok
      { project := p
        total_minutes :=
          ((db.time_entries.filter (entryMatches pid date_from date_to)).map
            (durationMinutes now)).sum
        total_income :=
          ((db.incomes.filter (incomeMatches pid date_from date_to)).map
            IncomeRecord.amount).sum
        effective_hourly_rate :=
          if 0 < ((db.time_entries.filter (entryMatches pid date_from date_to)).map
              (durationMinutes now)).sum then
            some (((db.incomes.filter (incomeMatches pid date_from date_to)).map
                IncomeRecord.amount).sum /
              (((db.time_entries.filter (entryMatches pid date_from date_to)).map
                (durationMinutes now)).sum / 60))
          else none }) ∧
    (db.time_entries.filter (entryMatches pid date_from date_to) = [] →
      db.incomes.filter (incomeMatches pid date_from date_to) = [] →
      project_summary db pid date_from date_to now = Except.ok ⟨p, 0, 0, none⟩) := by
  have h1 := time_window_eq pid date_from date_to db.time_entries
  have h2 := income_window_eq pid date_from date_to db.incomes
  constructor
  · unfold project_summary
    rw [hp, h1, h2]
  · intro he hi
    unfold project_summary
    rw [hp, h1, h2, he, hi]
    simp

/-- C1 witness: a concrete project with no time entries and no income. -/
theorem project_summary_totals_witness :
    project_summary storeAcme 1 none none 0 =
      Except.ok ⟨{ id := 1, name := "Acme", description := none, created_at := 0 },
        0, 0, none⟩ :=
  (project_summary_totals storeAcme 1 none none 0
    { id := 1, name := "Acme", description := none, created_at := 0 } rfl).2 rfl rfl

/-- C2 (code bug): POST /projects/ never succeeds. project.dict() contains the
keys client, hourly_rate and notes, which are not mapped attributes of
models.Project (its columns are id, name, description, created_at), so the
declarative constructor raises TypeError on every request and nothing is
persisted; the claim that a well-formed request with a fresh name does not
fail is violated by the code. -/
theorem create_project_always_raises (db : Store) (p : ProjectCreate)
    (newId : Nat) (now : Time) :
    create_project db p newId now =
      (db, Except.error "TypeError: client is an invalid keyword argument for Project") :=
  rfl

/-- C3: creating a time entry or an income record whose project_id does not
reference an existing project fails with 404 and leaves the store unchanged;
nothing is persisted. -/
theorem create_unknown_project_not_found (db : Store) (e : TimeEntryCreate)
    (inc : IncomeCreate) (n1 n2 : Nat)
    (he : findProject db e.project_id = none)
    (hi : findProject db inc.project_id = none) :
    create_time_entry db e n1 = (db, Except.error ⟨404, "Project not found"⟩) ∧
    create_income db inc n2 = (db, Except.error ⟨404, "Project not found"⟩) := by
  constructor
  · unfold create_time_entry
    rw [he]
  · unfold create_income
    rw [hi]

/-- C3 witness: creating against project id 5 in an empty store. -/
theorem create_unknown_project_not_found_witness :
    create_time_entry emptyStore ⟨5, 0, none, none⟩ 1 =
        (emptyStore, Except.error ⟨404, "Project not found"⟩) ∧
    create_income emptyStore ⟨5, 0, 120, none, none⟩ 1 =
        (emptyStore, Except.error ⟨404, "Project not found"⟩) :=
  create_unknown_project_not_found emptyStore ⟨5, 0, none, none⟩
    ⟨5, 0, 120, none, none⟩ 1 1 rfl rfl

theorem stop_noop (db : Store) (eid : Nat) (now : Time) (e : TimeEntry)
    (t : Time) (hfind : findTimeEntry db eid = some e) (hend : e.end_time = some t) :
    stop_time_entry db eid now = (db, Except.ok e) := by
  simp [stop_time_entry, hfind, hend]

theorem stop_ok_end_time_isSome (db : Store) (eid : Nat) (now : Time)
    (e : TimeEntry) (h : (stop_time_entry db eid now).2 = Except.ok e) :
    e.end_time.isSome = true := by
  cases hfind : findTimeEntry db eid with
  | none => simp [stop_time_entry, hfind] at h
  | some entry =>
      cases hend : entry.end_time with
      | none =>
          simp [stop_time_entry, hfind, hend] at h
          rw [← h]
          simp
      | some t =>
          simp [stop_time_entry, hfind, hend] at h
          rw [← h, hend]
          rfl

theorem stop_ok_find (db : Store) (eid : Nat) (now : Time) (e : TimeEntry)
    (h : (stop_time_entry db eid now).2 = Except.ok e) :
    findTimeEntry (stop_time_entry db eid now).1 eid = some e := by
  cases hfind : findTimeEntry db eid with
  | none => simp [stop_time_entry, hfind] at h
  | some entry =>
      cases hend : entry.end_time with
      | some t =>
          simp [stop_time_entry, hfind, hend] at h ⊢
          exact h
      | none =>
          simp only [stop_time_entry, hfind, hend] at h ⊢
          simp at h
          have hid : entry.id = eid := by
            have := List.find?_some hfind
            simpa using this
          have hsome : (db.time_entries.find? (fun x => x.id == eid)).isSome = true := by
            unfold findTimeEntry at hfind
            rw [hfind]
            rfl
          have hupd := find?_update_of_found eid { entry with end_time := some now }
            hid db.time_entries hsome
          unfold findTimeEntry
          rw [← h]
          exact hupd

/-- C4: stop is idempotent: whenever a stop call returns an entry (whose
end_time is then set), stopping again returns the very same entry — in
particular the same end_time — and leaves the store untouched. -/
theorem stop_time_entry_idempotent (db : Store) (eid : Nat) (now1 now2 : Time)
    (e1 : TimeEntry) (h : (stop_time_entry db eid now1).2 = Except.ok e1) :
    stop_time_entry (stop_time_entry db eid now1).1 eid now2 =
      ((stop_time_entry db eid now1).1, Except.ok e1) := by
  have hfind := stop_ok_find db eid now1 e1 h
  have hsome := stop_ok_end_time_isSome db eid now1 e1 h
  cases hend : e1.end_time with
  | none => rw [hend] at hsome; simp at hsome
  | some t => exact stop_noop _ eid now2 e1 t hfind hend

/-- C4 witness: stopping a running entry at time 60, then again at 120,
returns the identical stopped entry both times. -/
theorem stop_time_entry_idempotent_witness :
    stop_time_entry (stop_time_entry storeRun 1 60).1 1 120 =
      ((stop_time_entry storeRun 1 60).1, Except.ok ⟨1, 1, 0, some 60, none⟩) :=
  stop_time_entry_idempotent storeRun 1 60 120 ⟨1, 1, 0, some 60, none⟩ rfl

/-- C10: stopping an entry whose end_time is already set performs no write at
all: the store comes back unchanged and the returned entry is the stored
record itself, so every field (id, project_id, start_time, end_time, note) is
unchanged. -/
theorem stop_already_stopped_no_write (db : Store) (eid : Nat) (now : Time)
    (e : TimeEntry) (t : Time) (hfind : findTimeEntry db eid = some e)
    (hend : e.end_time = some t) :
    stop_time_entry db eid now = (db, Except.ok e) :=
  stop_noop db eid now e t hfind hend

/-- C10 witness: stopping the already-stopped entry of a concrete store. -/
theorem stop_already_stopped_no_write_witness :
    stop_time_entry storeStopped 1 99 =
      (storeStopped, Except.ok ⟨1, 1, 0, some 30, none⟩) :=
  stop_already_stopped_no_write storeStopped 1 99 ⟨1, 1, 0, some 30, none⟩ 30 rfl rfl

/-- C5 counterexample: main.py registers no DELETE route at all, so
DELETE /projects/{id}/ is not exposed; the claim that the system exposes it
fails. -/
theorem no_delete_route_registered :
    routes.filter (fun r => r.1 == "DELETE") = [] := by decide

/-- C5 amended: the HTTP layer exposes no DELETE endpoint; the cascade
declared on models.Project means that deleting a project through the
persistence layer removes it together with every dependent time entry and
income record — afterwards no child record of that project remains
retrievable — while records of other projects survive. -/
theorem delete_project_cascade_no_orphans (db : Store) (pid : Nat) :
    findProject (delete_project_cascade db pid) pid = none ∧
    (delete_project_cascade db pid).time_entries.filter
      (fun e => e.project_id == pid) = [] ∧
    (delete_project_cascade db pid).incomes.filter
      (fun i => i.project_id == pid) = [] ∧
    (∀ e ∈ db.time_entries, e.project_id ≠ pid →
      e ∈ (delete_project_cascade db pid).time_entries) ∧
    (∀ i ∈ db.incomes, i.project_id ≠ pid →
      i ∈ (delete_project_cascade db pid).incomes) := by
  refine ⟨?_, ?_, ?_, ?_, ?_⟩
  · simp [findProject, delete_project_cascade, List.find?_eq_none, List.mem_filter]
  · simp [delete_project_cascade, List.filter_filter]
  · simp [delete_project_cascade, List.filter_filter]
  · intro e he hne
    simp [delete_project_cascade, List.mem_filter, he, hne]
  · intro i hi hne
    simp [delete_project_cascade, List.mem_filter, hi, hne]

/-- C5 witness: deleting project 1 of a two-project store orphans nothing and
keeps the records of project 2. -/
theorem delete_project_cascade_no_orphans_witness :
    findProject (delete_project_cascade storeTwo 1) 1 = none ∧
    (delete_project_cascade storeTwo 1).time_entries.filter
      (fun e => e.project_id == 1) = [] ∧
    TimeEntry.mk 2 2 5 none none ∈ (delete_project_cascade storeTwo 1).time_entries := by
  refine ⟨(delete_project_cascade_no_orphans storeTwo 1).1,
    (delete_project_cascade_no_orphans storeTwo 1).2.1, ?_⟩
  exact (delete_project_cascade_no_orphans storeTwo 1).2.2.2.1
    ⟨2, 2, 5, none, none⟩ (by decide) (by decide)

unseal Rat.mul Rat.add Rat.sub Rat.inv in
/-- C6 counterexample: one income record whose note embeds a line break is
quoted by the writer and spans two physical lines, so the export has 3 lines
while the claim demands N+1 = 2. -/
theorem export_incomes_lines_counterexample :
    lineCount (export_incomes_csv storeBreak 1 none none).content = 3 ∧
    (matchingIncomesAsc storeBreak 1 none none).length + 1 = 2 := by
  constructor
  · decide
  · decide

theorem lineCount_income_rows (l : List IncomeRecord)
    (h : ∀ i ∈ l, noLineBreak (i.source.getD "") = true ∧
      noLineBreak (i.note.getD "") = true) :
    lineCount (concatRows (l.map (fun i => csvRow (incomeCsvFields i)))) = l.length := by
  induction l with
  | nil => decide
  | cons i is ih =>
      rw [List.map_cons]
      show lineCount (csvRow (incomeCsvFields i) ++
        concatRows (is.map (fun i => csvRow (incomeCsvFields i)))) = is.length + 1
      rw [lineCount_append, ih (fun j hj => h j (by simp [hj]))]
      rw [lineCount_csvRow]
      · omega
      · intro f hf
        have hi := h i (by simp)
        simp only [incomeCsvFields, List.mem_cons, List.not_mem_nil, or_false] at hf
        rcases hf with rfl | rfl | rfl | rfl | rfl | rfl
        · exact noLineBreak_natRepr _
        · exact noLineBreak_natRepr _
        · exact noLineBreak_isoformat _
        · exact noLineBreak_formatTwoDecimals _
        · exact hi.1
        · exact hi.2

unseal Rat.mul Rat.add Rat.sub Rat.inv in
/-- C6 corrected: the income export always emits one fixed header row plus one
CSV row per matching record; when no source or note field embeds a line-break
character the payload has exactly N+1 physical lines (a record with an
embedded line break is quoted and spans extra lines); every amount is
formatted with exactly two decimal places (amount 1500 renders as 1500.00)
and null source and note fields render as the empty string. -/
theorem export_incomes_csv_formatting (db : Store) (pid : Nat)
    (df dt : Option Time)
    (h : ∀ i ∈ matchingIncomesAsc db pid df dt,
      noLineBreak (i.source.getD "") = true ∧ noLineBreak (i.note.getD "") = true) :
    lineCount (export_incomes_csv db pid df dt).content
      = (matchingIncomesAsc db pid df dt).length + 1 ∧
    (∀ x : ℚ, twoDecimalPlaces (formatTwoDecimals x)) ∧
    formatTwoDecimals 1500 = "1500.00" ∧
    (∀ i : IncomeRecord, i.source = none → (incomeCsvFields i).get? 4 = some "") ∧
    (∀ i : IncomeRecord, i.note = none → (incomeCsvFields i).get? 5 = some "") := by
  refine ⟨?_, fun x => formatTwoDecimals_shape x, by decide, ?_, ?_⟩
  · show lineCount (csvRow incomesHeader ++
      concatRows ((matchingIncomesAsc db pid df dt).map
        (fun i => csvRow (incomeCsvFields i)))) = _
    rw [lineCount_append, lineCount_income_rows _ h, lineCount_csvRow]
    · omega
    · intro f hf
      revert f
      decide
  · intro i hi
    simp [incomeCsvFields, hi]
  · intro i hi
    simp [incomeCsvFields, hi]

/-- C6 witness: a store with two break-free incomes exports 3 lines (header
plus two rows). -/
theorem export_incomes_csv_formatting_witness :
    lineCount (export_incomes_csv storePlain 1 none none).content
      = (matchingIncomesAsc storePlain 1 none none).length + 1 ∧
    formatTwoDecimals 1500 = "1500.00" := by
  have hmain := export_incomes_csv_formatting storePlain 1 none none (by decide)
  exact ⟨hmain.1, hmain.2.2.1⟩

/-- C7: listing time entries filtered by [date_from, date_to] returns exactly
the stored entries (matching the optional project filter) whose start_time
lies within the inclusive bounds: entries starting exactly at date_from or at
date_to are included and nothing outside the bounds is returned. -/
theorem list_time_entries_inclusive_bounds (db : Store) (project_id : Option Nat)
    (date_from date_to : Time) (e : TimeEntry) :
    e ∈ list_time_entries db project_id (some date_from) (some date_to) ↔
      e ∈ db.time_entries ∧
        (∀ pid, project_id = some pid → e.project_id = pid) ∧
        date_from ≤ e.start_time ∧ e.start_time ≤ date_to := by
  unfold list_time_entries
  rw [mem_sortDescBy]
  cases project_id with
  | none =>
      simp [filterProjTime, filterFromTime, filterToTime, List.mem_filter,
        and_assoc, and_comm]
  | some pid =>
      simp [filterProjTime, filterFromTime, filterToTime, List.mem_filter,
        and_assoc, and_comm, and_left_comm]

/-- C7 witness: an entry starting exactly on both bounds is returned. -/
theorem list_time_entries_inclusive_bounds_witness :
    TimeEntry.mk 1 1 5 none none ∈ list_time_entries storeBound none (some 5) (some 5) := by
  refine (list_time_entries_inclusive_bounds storeBound none 5 5
    ⟨1, 1, 5, none, none⟩).mpr ⟨?_, ?_, ?_, ?_⟩
  · decide
  · intro pid hpid
    cases hpid
  · decide
  · decide

/-- C8 counterexample: exporting incomes for a project id that does not exist
does not fail with not-found; the handler performs no existence check and
returns a header-only CSV response. -/
theorem export_unknown_project_returns_csv :
    export_incomes_csv emptyStore 1 none none =
      { content := "id,project_id,date,amount,source,note\r\n",
        filename := "project_1_incomes.csv" } := rfl

theorem matchingEntriesAsc_empty (db : Store) (pid : Nat) (df dt : Option Time)
    (he : db.time_entries.filter (fun e => e.project_id == pid) = []) :
    matchingEntriesAsc db pid df dt = [] := by
  unfold matchingEntriesAsc
  rw [he]
  cases df <;> cases dt <;> rfl

theorem matchingIncomesAsc_empty (db : Store) (pid : Nat) (df dt : Option Time)
    (hi : db.incomes.filter (fun i => i.project_id == pid) = []) :
    matchingIncomesAsc db pid df dt = [] := by
  unfold matchingIncomesAsc
  rw [hi]
  cases df <;> cases dt <;> rfl

/-- C8 amended: GET /projects/{project_id}/summary fails with 404 and the
message Project not found when the project id is unknown, but the two CSV
export endpoints perform no project-existence check: for an unknown project id
(with no stray child records) they return a header-only one-line CSV response
instead of a not-found error. -/
theorem unknown_project_summary_404_exports_no_check (db : Store) (pid : Nat)
    (df dt : Option Time) (now : Time)
    (hp : findProject db pid = none)
    (he : db.time_entries.filter (fun e => e.project_id == pid) = [])
    (hi : db.incomes.filter (fun i => i.project_id == pid) = []) :
    project_summary db pid df dt now = Except.error ⟨404, "Project not found"⟩ ∧
    (export_time_csv db pid df dt now).content = csvRow timeHeader ∧
    (export_incomes_csv db pid df dt).content = csvRow incomesHeader ∧
    lineCount (export_time_csv db pid df dt now).content = 1 ∧
    lineCount (export_incomes_csv db pid df dt).content = 1 := by
  have hte : (export_time_csv db pid df dt now).content = csvRow timeHeader := by
    show csvRow timeHeader ++ concatRows ((matchingEntriesAsc db pid df dt).map
      (fun e => csvRow (timeCsvFields now e))) = csvRow timeHeader
    rw [matchingEntriesAsc_empty db pid df dt he]
    simp [concatRows]
  have hie : (export_incomes_csv db pid df dt).content = csvRow incomesHeader := by
    show csvRow incomesHeader ++ concatRows ((matchingIncomesAsc db pid df dt).map
      (fun i => csvRow (incomeCsvFields i))) = csvRow incomesHeader
    rw [matchingIncomesAsc_empty db pid df dt hi]
    simp [concatRows]
  refine ⟨?_, hte, hie, ?_, ?_⟩
  · unfold project_summary
    rw [hp]
  · rw [hte]
    exact lineCount_csvRow _ (by decide)
  · rw [hie]
    exact lineCount_csvRow _ (by decide)

/-- C8 witness: unknown project id 1 against the empty store. -/
theorem unknown_project_summary_404_exports_no_check_witness :
    project_summary emptyStore 1 none none 0 =
        Except.error ⟨404, "Project not found"⟩ ∧
    lineCount (export_incomes_csv emptyStore 1 none none).content = 1 := by
  have hmain := unknown_project_summary_404_exports_no_check emptyStore 1
    none none 0 rfl rfl rfl
  exact ⟨hmain.1, hmain.2.2.2.2⟩

/-- C9 counterexample: a POST /incomes/ request that omits date is rejected by
request validation with a 422 error and persists nothing; it does not succeed
with the date defaulted to the creation time. -/
theorem income_missing_date_rejected :
    post_incomes storeAcme reqNoDate 1 =
      (storeAcme, Except.error ⟨422, "field required"⟩) := rfl

/-- C9 amended: date is declared without a default in the request schema, so a
create request omitting it is rejected with a validation error before any
store access (the creation-time default on the storage column is never
reached through the API); when date is supplied together with the other
required fields and the project exists, the persisted record carries exactly
the requested date. -/
theorem income_date_required_not_defaulted (db : Store) (r : IncomeRequest)
    (newId : Nat) :
    (r.date = none →
      post_incomes db r newId = (db, Except.error ⟨422, "field required"⟩)) ∧
    (∀ pid d a p, r.project_id = some pid → r.date = some d → r.amount = some a →
      findProject db pid = some p →
      post_incomes db r newId =
        ({ db with incomes := db.incomes ++
            [⟨newId, pid, d, a, none, r.source, r.note⟩] },
          Except.ok ⟨newId, pid, d, a, none, r.source, r.note⟩)) := by
  constructor
  · intro hd
    cases hpid : r.project_id <;> cases ha : r.amount <;>
      simp [post_incomes, parseIncomeCreate, hd, hpid, ha]
  · intro pid d a p h1 h2 h3 hp
    simp [post_incomes, parseIncomeCreate, h1, h2, h3, create_income, hp]

/-- C9 witness: omitting date is rejected; supplying date 42 persists date 42. -/
theorem income_date_required_not_defaulted_witness :
    post_incomes storeAcme reqNoDate 1 =
        (storeAcme, Except.error ⟨422, "field required"⟩) ∧
    post_incomes storeAcme reqFull 2 =
      ({ storeAcme with incomes := [⟨2, 1, 42, 1500, none, none, some "invoice"⟩] },
        Except.ok ⟨2, 1, 42, 1500, none, none, some "invoice"⟩) := by
  constructor
  · exact (income_date_required_not_defaulted storeAcme reqNoDate 1).1 rfl
  · exact (income_date_required_not_defaulted storeAcme reqFull 2).2 1 42 1500
      { id := 1, name := "Acme", description := none, created_at := 0 } rfl rfl rfl rfl

end AutoTrac
